import Mathlib

/-!
Verification of the resilience core of the lead-scorer repository:
the exponential-backoff retry primitive (RFR Level 1), the abstract
workflow contract with tenant validation, the non-throwing Level-4
alert helper, and the cached settings / org-context accessors.

Sources embedded:
- src/core/base_workflow.py  (retry_with_backoff, BaseWorkflow)
- src/core/config_manager.py (Settings, get_settings, get_org_context)
-/

/-- Python exception class kinds that appear in the embedded code. -/
inductive ExcKind where
  | valueError
  | typeError
  | runtimeError
  | keyboardInterrupt
  | other (n : Nat)
  deriving DecidableEq

/-- A Python exception object: its class kind, whether its class derives
from the base class Exception (BaseException subclasses such as
KeyboardInterrupt do not), its message, and an object identity tag so
that reference-identity of a re-raised exception can be stated. -/
structure Exc where
  kind : ExcKind
  derivesException : Bool
  msg : String
  eid : Nat
  deriving DecidableEq

/-- A small universe of Python values, enough for the org_id validation
paths of the embedded code (strings, plus representative non-strings). -/
inductive PyVal where
  | none
  | str (s : String)
  | int (n : Int)
  | bool (b : Bool)
  deriving DecidableEq

/-- Python truthiness for the values of PyVal: None, the empty string,
0 and False are falsy. -/
def PyVal.truthy : PyVal → Bool
  | .none => false
  | .str s => !s.isEmpty
  | .int n => n != 0
  | .bool b => b

/-- Python isinstance(v, str). -/
def PyVal.isStr : PyVal → Bool
  | .str _ => true
  | _ => false

/-- The underlying String of a PyVal known to be a string (arbitrary
on the other constructors, which the call sites rule out). -/
def PyVal.asStr : PyVal → String
  | .str s => s
  | _ => ""

/-- Python str(v), as used by f-string interpolation. -/
def PyVal.pyStr : PyVal → String
  | .none => "None"
  | .str s => s
  | .int n => toString n
  | .bool b => if b then "True" else "False"

/-- Log severities used by the embedded code. -/
inductive LogLevel where
  | info
  | warning
  | error
  | critical
  deriving DecidableEq

/-- One emitted log record: severity, emitting logger name, and text. -/
structure LogRecord where
  level : LogLevel
  loggerName : String
  text : String
  deriving DecidableEq

/-- Observable outcome of one call of a retry-wrapped operation
(src/core/base_workflow.py lines 22-37): the returned value or the
propagated exception, the number of invocations of the wrapped
operation, the sleep durations inserted (in order, in seconds), and
how many retry-warning and exhaustion-error records were logged. -/
structure Trace (α : Type) where
  result : Except Exc α
  calls : Nat
  sleeps : List ℚ
  warnLogs : Nat
  errLogs : Nat

/-- The loop body of the wrapper in retry_with_backoff
(src/core/base_workflow.py lines 22-37).  The Python loop keeps a
counter x starting at 0 and stops retrying when x == retries; here
remaining = retries - x decreases to 0, so x = retries - remaining.
Each iteration: call the operation (op takes the attempt index, so a
fallible operation may behave differently per attempt); on success
return the result; on an exception not matched by the except-clause
predicate, propagate it at once with no logging and no sleep; on a
matched exception, if x == retries log one error and re-raise the very
exception object, otherwise log one warning, sleep backoff * 2 ^ x and
retry with x + 1. -/
def retryAux (retries : Nat) (backoff : ℚ) (catches : Exc → Bool)
    (op : Nat → Except Exc α) : Nat → Trace α
  | 0 =>
    match op retries with
    | .ok a => { result := .ok a, calls := 1, sleeps := [], warnLogs := 0, errLogs := 0 }
    | .error e =>
      if catches e then
        { result := .error e, calls := 1, sleeps := [], warnLogs := 0, errLogs := 1 }
      else
        { result := .error e, calls := 1, sleeps := [], warnLogs := 0, errLogs := 0 }
  | r + 1 =>
    match op (retries - (r + 1)) with
    | .ok a => { result := .ok a, calls := 1, sleeps := [], warnLogs := 0, errLogs := 0 }
    | .error e =>
      if catches e then
        let t := retryAux retries backoff catches op r
        { result := t.result, calls := t.calls + 1,
          sleeps := (backoff * 2 ^ (retries - (r + 1))) :: t.sleeps,
          warnLogs := t.warnLogs + 1, errLogs := t.errLogs }
      else
        { result := .error e, calls := 1, sleeps := [], warnLogs := 0, errLogs := 0 }

/-- retry_with_backoff (src/core/base_workflow.py lines 12-39): the
wrapper produced by the decorator, applied to one call.  retries is
the maxRetries budget, backoff the base delay in seconds, catches the
predicate the except-clause tuple induces on a raised exception
(isinstance against the configured exception classes). -/
def retry_with_backoff (retries : Nat) (backoff : ℚ) (catches : Exc → Bool)
    (op : Nat → Except Exc α) : Trace α :=
  retryAux retries backoff catches op retries

/-- The default except-clause of retry_with_backoff, exceptions =
(Exception,) (src/core/base_workflow.py line 15): an exception is
caught exactly when its class derives from Exception. -/
def defaultExceptions : Exc → Bool := fun e => e.derivesException

/-- retry_with_backoff with all of its default arguments, retries = 3
and backoff_in_seconds = 1 (src/core/base_workflow.py lines 13-15). -/
def retry_default (op : Nat → Except Exc α) : Trace α :=
  retry_with_backoff 3 1 defaultExceptions op

/-- The ValueError raised by BaseWorkflow.__init__ on an invalid org_id
(src/core/base_workflow.py line 50).  The spec calls this failure
ValidationError in its taxonomy. -/
def orgIdError : Exc :=
  { kind := .valueError, derivesException := true,
    msg := "A valid \x27org_id\x27 must be provided to initialize a workflow.",
    eid := 0 }

/-- The constructed state of a BaseWorkflow instance
(src/core/base_workflow.py lines 48-54): the tenant id and the derived
logger name f"{cls}[{org_id}]". -/
structure BaseWorkflow where
  org_id : String
  loggerName : String
  deriving DecidableEq

/-- BaseWorkflow.__init__ (src/core/base_workflow.py lines 48-54):
raise ValueError when org_id is falsy or not a string; otherwise set
self.org_id, derive the logger name, and emit one info record.  Either
a fully constructed instance is returned or only the error is. -/
def BaseWorkflow.init (clsName : String) (org_id : PyVal) :
    Except Exc (BaseWorkflow × LogRecord) :=
  if !org_id.truthy || !org_id.isStr then
    .error orgIdError
  else
    let s := org_id.asStr
    let wf : BaseWorkflow := { org_id := s, loggerName := clsName ++ "[" ++ s ++ "]" }
    .ok (wf, { level := .info, loggerName := wf.loggerName,
               text := "Initialized workflow for Org: " ++ s })

/-- A Python dict of string keys, as passed for the context argument. -/
abbrev Ctx := List (String × PyVal)

/-- Python repr(v), as dict formatting uses for the values. -/
def PyVal.pyRepr : PyVal → String
  | .none => "None"
  | .str s => "\x27" ++ s ++ "\x27"
  | .int n => toString n
  | .bool b => if b then "True" else "False"

/-- Python str() of a dict, as f-string interpolation renders the
context argument of the Level-4 alert. -/
def ctxStr (c : Ctx) : String :=
  "\x7b" ++ String.intercalate ", "
    (c.map (fun kv => "\x27" ++ kv.1 ++ "\x27: " ++ kv.2.pyRepr)) ++ "\x7d"

/-- Python (context or dict()) for an Optional[Dict] argument: None is
falsy and replaced by the empty dict; an empty dict is falsy and
replaced by an (equal) empty dict; anything else is kept. -/
def pyOr : Option Ctx → Ctx
  | Option.none => []
  | Option.some c => if c.isEmpty then [] else c

/-- The escalation record handed to the external AlertSink at Level 4:
tenant id, message, context (spec section 3, EscalationRecord). -/
structure EscalationRecord where
  tenantId : String
  message : String
  context : Ctx

/-- An external AlertSink: consumes an escalation record and may fail. -/
def AlertSink : Type := EscalationRecord → Except Exc Unit

/-- Modelled from the spec: the push notification to the AlertSink is
missing from the source, left as a TODO (src/core/base_workflow.py
line 73).  Per the spec, forwarding is fire-and-forget: any failure
while contacting the AlertSink is caught and logged, never re-raised. -/
def forwardToSink (sink : AlertSink) (rec : EscalationRecord) : List LogRecord :=
  match sink rec with
  | .ok _ => []
  | .error e =>
    [{ level := .error, loggerName := "ALS[" ++ rec.tenantId ++ "]",
       text := "AlertDeliveryFailure swallowed: " ++ e.msg }]

/-- rfr_level_4_alert (src/core/base_workflow.py lines 64-73): compute
error_context = context or dict(), log one critical record tagged with
the workflow logger and containing the org id, the message and the
context, then best-effort forward to the AlertSink.  Returns the
possibly-updated instance state and the call outcome with the emitted
records; the method never assigns to self and never raises. -/
def rfr_level_4_alert (wf : BaseWorkflow) (message : String)
    (context : Option Ctx) (sink : AlertSink) :
    BaseWorkflow × Except Exc (List LogRecord) :=
  let error_context := pyOr context
  let critRec : LogRecord :=
    { level := .critical, loggerName := wf.loggerName,
      text := "RFR-L4 ALERT | Org: " ++ wf.org_id ++ " | Message: " ++ message
        ++ " | Context: " ++ ctxStr error_context }
  (wf, .ok (critRec :: forwardToSink sink
    { tenantId := wf.org_id, message := message, context := error_context }))

/-- log_partial_success (src/core/base_workflow.py lines 75-77): emit
one info record; no assignment to self, no failure path. -/
def logPartialSuccess (wf : BaseWorkflow) (step_name details : String) :
    BaseWorkflow × LogRecord :=
  (wf, { level := .info, loggerName := wf.loggerName,
         text := "Step \x27" ++ step_name ++ "\x27 completed: " ++ details })

/-- Settings (src/core/config_manager.py lines 7-69): the flat
configuration fields with their declared defaults. -/
structure Settings where
  ENVIRONMENT : String := "development"
  LOG_LEVEL : String := "INFO"
  DOCKER_MODE : Bool := false
  POSTGRES_USER : String := "admin"
  POSTGRES_PASSWORD : String := "password"
  POSTGRES_HOST : String := "localhost"
  POSTGRES_PORT : Nat := 5432
  POSTGRES_DB : String := "lead_scorer_db"
  MINIO_HOST : String := "localhost"
  MINIO_PORT : Nat := 9000
  MINIO_ROOT_USER : String := "admin"
  MINIO_ROOT_PASSWORD : String := "password"
  RAW_DATA_BUCKET : String := "raw-data"
  MLFLOW_HOST : String := "localhost"
  MLFLOW_PORT : Nat := 5000
  REDIS_HOST : String := "localhost"
  REDIS_PORT : Nat := 6379
  OPENAI_API_KEY : Option String := Option.none
  LLM_MODEL : String := "gpt-4-turbo-preview"
  SF_CLIENT_ID : Option String := Option.none
  SF_CLIENT_SECRET : Option String := Option.none
  SF_REDIRECT_URI : String := "http://localhost:8000/v1/auth/callback"
  deriving DecidableEq

/-- Settings.DATABASE_URL (src/core/config_manager.py lines 25-28). -/
def Settings.DATABASE_URL (s : Settings) : String :=
  let host := if s.DOCKER_MODE then "postgres" else s.POSTGRES_HOST
  "postgresql://" ++ s.POSTGRES_USER ++ ":" ++ s.POSTGRES_PASSWORD ++ "@"
    ++ host ++ ":" ++ toString s.POSTGRES_PORT ++ "/" ++ s.POSTGRES_DB

/-- Settings.MINIO_ENDPOINT (src/core/config_manager.py lines 37-40). -/
def Settings.MINIO_ENDPOINT (s : Settings) : String :=
  let host := if s.DOCKER_MODE then "minio" else s.MINIO_HOST
  host ++ ":" ++ toString s.MINIO_PORT

/-- Settings.MLFLOW_TRACKING_URI (src/core/config_manager.py 46-49). -/
def Settings.MLFLOW_TRACKING_URI (s : Settings) : String :=
  let host := if s.DOCKER_MODE then "mlflow" else s.MLFLOW_HOST
  "http://" ++ host ++ ":" ++ toString s.MLFLOW_PORT

/-- Settings.REDIS_URL (src/core/config_manager.py lines 55-58). -/
def Settings.REDIS_URL (s : Settings) : String :=
  let host := if s.DOCKER_MODE then "redis" else s.REDIS_HOST
  "redis://" ++ host ++ ":" ++ toString s.REDIS_PORT ++ "/0"

/-- Process state for the functools.lru_cache on get_settings: the
cached Settings instance with its object identity, if a call already
populated the cache, and a counter supplying fresh identities. -/
structure ProcState where
  settingsCache : Option (Nat × Settings)
  nextId : Nat
  deriving DecidableEq

/-- get_settings (src/core/config_manager.py lines 72-75) under its
lru_cache: on a hit return the cached object (same identity) leaving
the state unchanged; on a miss construct a Settings instance (mk is
what the Settings() constructor yields in this process) with a fresh
identity, cache it, and return it. -/
def get_settings (σ : ProcState) (mk : Settings) : (Nat × Settings) × ProcState :=
  match σ.settingsCache with
  | Option.some c => (c, σ)
  | Option.none =>
    let c := (σ.nextId, mk)
    (c, { settingsCache := Option.some c, nextId := σ.nextId + 1 })

/-- The result of the n-th call of get_settings after an initial call
from state σ (call 0 is the first call), threading the cache state. -/
def get_settings_nth (σ : ProcState) (mk : Settings) : Nat → (Nat × Settings) × ProcState
  | 0 => get_settings σ mk
  | n + 1 => get_settings (get_settings_nth σ mk n).2 mk

/-- The ValueError raised by get_org_context on a falsy org_id
(src/core/config_manager.py line 85). -/
def isolationError : Exc :=
  { kind := .valueError, derivesException := true,
    msg := "org_id is required for isolation enforcement.",
    eid := 0 }

/-- get_org_context (src/core/config_manager.py lines 77-93): raise
ValueError when org_id is falsy, else return the dict of the org id
and its derived storage and log prefixes. -/
def get_org_context (org_id : PyVal) : Except Exc (List (String × PyVal)) :=
  if !org_id.truthy then
    .error isolationError
  else
    .ok [("org_id", org_id),
         ("storage_prefix", .str ("orgs/" ++ org_id.pyStr ++ "/")),
         ("log_prefix", .str ("ALS[" ++ org_id.pyStr ++ "]"))]

/-- A representative Exception-derived failure, echoing the transient
failure raised in the repository test suite. -/
def excBoom : Exc :=
  { kind := .valueError, derivesException := true,
    msg := "Simulated Transient Failure", eid := 42 }

/-- A representative failure whose class does not derive Exception
(a BaseException such as KeyboardInterrupt). -/
def excInterrupt : Exc :=
  { kind := .keyboardInterrupt, derivesException := false,
    msg := "", eid := 7 }

/-- A representative always-failing AlertSink. -/
def failingSink : AlertSink :=
  fun _ => .error { kind := .runtimeError, derivesException := true,
                    msg := "sink unreachable", eid := 99 }

/-! Helper lemmas about the retry loop. -/

/-- On an operation that succeeds at the first attempt of the call,
the loop returns at once: one call, no sleep, no log. -/
theorem retry_ok_spec (retries : Nat) (b : ℚ) (catches : Exc → Bool)
    (op : Nat → Except Exc α) (a : α) (hop : op 0 = Except.ok a) :
    retry_with_backoff retries b catches op =
      { result := Except.ok a, calls := 1, sleeps := [], warnLogs := 0, errLogs := 0 } := by
  cases retries with
  | zero => simp [retry_with_backoff, retryAux, hop]
  | succ m => simp [retry_with_backoff, retryAux, Nat.sub_self, hop]

/-- On a first-attempt failure the except-clause does not match, the
loop propagates it at once: one call, no sleep, no log. -/
theorem retry_nonretry_spec (retries : Nat) (b : ℚ) (catches : Exc → Bool)
    (op : Nat → Except Exc α) (e : Exc)
    (hop : op 0 = Except.error e) (hc : catches e = false) :
    retry_with_backoff retries b catches op =
      { result := Except.error e, calls := 1, sleeps := [], warnLogs := 0, errLogs := 0 } := by
  cases retries with
  | zero => simp [retry_with_backoff, retryAux, hop, hc]
  | succ m => simp [retry_with_backoff, retryAux, Nat.sub_self, hop, hc]

/-- Unrolling of the loop on an operation that fails with a matched
exception at every attempt, parametrised by the remaining budget. -/
theorem retryAux_fail (retries : Nat) (b : ℚ) (catches : Exc → Bool)
    (op : Nat → Except Exc α) (f : Nat → Exc)
    (hop : ∀ k, op k = Except.error (f k)) (hc : ∀ k, catches (f k) = true) :
    ∀ remaining, remaining ≤ retries →
      retryAux retries b catches op remaining =
        { result := Except.error (f retries), calls := remaining + 1,
          sleeps := (List.range remaining).map (fun i => b * 2 ^ (retries - remaining + i)),
          warnLogs := remaining, errLogs := 1 } := by
  intro remaining
  induction remaining with
  | zero =>
    intro _
    simp [retryAux, hop retries, hc retries]
  | succ r ih =>
    intro h
    have ih2 := ih (Nat.le_of_succ_le h)
    have hexp : ∀ i : Nat, retries - (r + 1) + (i + 1) = retries - r + i := by
      intro i; omega
    have htail : List.map (fun i => b * 2 ^ (retries - (r + 1) + (i + 1))) (List.range r)
        = List.map (fun i => b * 2 ^ (retries - r + i)) (List.range r) :=
      List.map_congr_left (fun i _ => by rw [hexp i])
    have hlist : (List.range (r + 1)).map (fun i => b * 2 ^ (retries - (r + 1) + i))
        = (b * 2 ^ (retries - (r + 1)))
            :: (List.range r).map (fun i => b * 2 ^ (retries - r + i)) := by
      rw [List.range_succ_eq_map, List.map_cons, List.map_map]
      rw [← htail]
      simp [Function.comp_def]
    simp only [retryAux, hop (retries - (r + 1)), hc (retries - (r + 1)), if_true, ih2, hlist]

/-- The loop on an operation that fails with a matched exception at
every attempt: retries + 1 calls, sleeps b * 2 ^ 0 .. b * 2 ^ (retries - 1),
one retry warning per sleep, one exhaustion error, and the very
exception of the last attempt as the result. -/
theorem retry_fail_spec (retries : Nat) (b : ℚ) (catches : Exc → Bool)
    (op : Nat → Except Exc α) (f : Nat → Exc)
    (hop : ∀ k, op k = Except.error (f k)) (hc : ∀ k, catches (f k) = true) :
    retry_with_backoff retries b catches op =
      { result := Except.error (f retries), calls := retries + 1,
        sleeps := (List.range retries).map (fun i => b * 2 ^ i),
        warnLogs := retries, errLogs := 1 } := by
  rw [retry_with_backoff, retryAux_fail retries b catches op f hop hc retries le_rfl]
  simp [Nat.sub_self]

/-- Closed form of the geometric sleep schedule total. -/
theorem geomListSum (d : ℚ) : ∀ n : Nat,
    ((List.range n).map (fun i => d * 2 ^ i)).sum = d * (2 ^ n - 1)
  | 0 => by simp
  | n + 1 => by
    rw [List.range_succ, List.map_append, List.sum_append, geomListSum d n]
    simp [pow_succ]
    ring

/-! Claim theorems. -/

/-- C1: for every constructed workflow, message and context (including
none), the Level-4 alert helper rfr_level_4_alert returns normally for
every AlertSink behaviour — in particular for an always-failing sink —
never propagating a failure, and the first record it logs is a
critical record carrying the tenant id, the message and the context. -/
theorem c1_alertCritical_never_raises (wf : BaseWorkflow) (message : String)
    (context : Option Ctx) (sink : AlertSink) :
    ∃ logs, (rfr_level_4_alert wf message context sink).2 = Except.ok logs ∧
      logs.head? = Option.some
        { level := LogLevel.critical, loggerName := wf.loggerName,
          text := "RFR-L4 ALERT | Org: " ++ wf.org_id ++ " | Message: " ++ message
            ++ " | Context: " ++ ctxStr (pyOr context) } :=
  ⟨_, rfl, rfl⟩

/-- C2: for every maxRetries n and every operation that always fails
with a failure matched by the retryable set, retry_with_backoff
invokes the operation exactly n + 1 times and its propagated failure
is the very exception object raised by the last attempt (attempt
index n), not a wrapped or replaced one; with n = 0 there is exactly
one attempt. -/
theorem c2_retry_exhausts_budget (n : Nat) (b : ℚ) (catches : Exc → Bool)
    (op : Nat → Except Exc α) (f : Nat → Exc)
    (hop : ∀ k, op k = Except.error (f k)) (hc : ∀ k, catches (f k) = true) :
    (retry_with_backoff n b catches op).calls = n + 1 ∧
    (retry_with_backoff n b catches op).result = Except.error (f n) := by
  rw [retry_fail_spec n b catches op f hop hc]
  exact ⟨rfl, rfl⟩

/-- Witness for C2 at maxRetries = 0: exactly one attempt, no retry,
and the original failure object propagated. -/
theorem c2_witness :
    (retry_with_backoff 0 1 (fun _ => true)
      (fun _ => (Except.error excBoom : Except Exc Nat))).calls = 0 + 1 ∧
    (retry_with_backoff 0 1 (fun _ => true)
      (fun _ => (Except.error excBoom : Except Exc Nat))).result = Except.error excBoom :=
  c2_retry_exhausts_budget 0 1 (fun _ => true) (fun _ => Except.error excBoom)
    (fun _ => excBoom) (fun _ => rfl) (fun _ => rfl)

/-- C3: with maxRetries n at least 1 and base delay d positive, on an
operation that always fails retryably the delay slept before retry
attempt k (k in 1..n) is d * 2 ^ (k - 1), and the total delay before
the final failure surfaces is at least d * (2 ^ n - 1). -/
theorem c3_backoff_schedule (n : Nat) (d : ℚ) (catches : Exc → Bool)
    (op : Nat → Except Exc α) (f : Nat → Exc) (k : Nat)
    (hn : 1 ≤ n) (hd : 0 < d)
    (hop : ∀ j, op j = Except.error (f j)) (hc : ∀ j, catches (f j) = true)
    (hk1 : 1 ≤ k) (hkn : k ≤ n) :
    (retry_with_backoff n d catches op).sleeps[k - 1]? = some (d * 2 ^ (k - 1)) ∧
    d * (2 ^ n - 1) ≤ (retry_with_backoff n d catches op).sleeps.sum := by
  rw [retry_fail_spec n d catches op f hop hc]
  constructor
  · have hklt : k - 1 < n := by omega
    rw [List.getElem?_map, List.getElem?_range hklt]
    rfl
  · rw [geomListSum d n]

/-- Witness for C3 at the concrete scenario of the spec, maxRetries = 2
and baseDelay = 1/10: sleeps 1/10 and 2/10 before the two retries, and
total delay at least (1/10) * 3. -/
theorem c3_witness :
    ((retry_with_backoff 2 (1/10) (fun _ => true)
        (fun _ => (Except.error excBoom : Except Exc Nat))).sleeps[0]?
      = some ((1/10 : ℚ) * 2 ^ 0)) ∧
    ((retry_with_backoff 2 (1/10) (fun _ => true)
        (fun _ => (Except.error excBoom : Except Exc Nat))).sleeps[1]?
      = some ((1/10 : ℚ) * 2 ^ 1)) ∧
    ((1/10 : ℚ) * (2 ^ 2 - 1) ≤ (retry_with_backoff 2 (1/10) (fun _ => true)
        (fun _ => (Except.error excBoom : Except Exc Nat))).sleeps.sum) :=
  ⟨(c3_backoff_schedule 2 (1/10) (fun _ => true) (fun _ => Except.error excBoom)
      (fun _ => excBoom) 1 (by decide) (by norm_num) (fun _ => rfl) (fun _ => rfl)
      (by decide) (by decide)).1,
   (c3_backoff_schedule 2 (1/10) (fun _ => true) (fun _ => Except.error excBoom)
      (fun _ => excBoom) 2 (by decide) (by norm_num) (fun _ => rfl) (fun _ => rfl)
      (by decide) (by decide)).1,
   (c3_backoff_schedule 2 (1/10) (fun _ => true) (fun _ => Except.error excBoom)
      (fun _ => excBoom) 1 (by decide) (by norm_num) (fun _ => rfl) (fun _ => rfl)
      (by decide) (by decide)).2⟩

/-- C4: for every retry configuration, a first-attempt failure whose
kind is outside the retryable set is propagated unchanged after
exactly one invocation, with zero delay and no logging at all. -/
theorem c4_nonretryable_immediate (n : Nat) (b : ℚ) (catches : Exc → Bool)
    (op : Nat → Except Exc α) (e : Exc)
    (hop : op 0 = Except.error e) (hc : catches e = false) :
    retry_with_backoff n b catches op =
      { result := Except.error e, calls := 1, sleeps := [],
        warnLogs := 0, errLogs := 0 } :=
  retry_nonretry_spec n b catches op e hop hc

/-- Witness for C4: a non-Exception-derived failure under the default
except-clause, at the default budget. -/
theorem c4_witness :
    retry_with_backoff 3 1 defaultExceptions
        (fun _ => (Except.error excInterrupt : Except Exc Nat)) =
      { result := Except.error excInterrupt, calls := 1, sleeps := [],
        warnLogs := 0, errLogs := 0 } :=
  c4_nonretryable_immediate 3 1 defaultExceptions
    (fun _ => Except.error excInterrupt) excInterrupt rfl rfl

/-- C6: for every retry configuration, an operation whose first
invocation succeeds with result r returns exactly r from the wrapper
after one invocation, with no delay and no wrapping or alteration. -/
theorem c6_success_passthrough (n : Nat) (b : ℚ) (catches : Exc → Bool)
    (op : Nat → Except Exc α) (r : α) (hop : op 0 = Except.ok r) :
    retry_with_backoff n b catches op =
      { result := Except.ok r, calls := 1, sleeps := [],
        warnLogs := 0, errLogs := 0 } :=
  retry_ok_spec n b catches op r hop

/-- Witness for C6 at the default configuration and result 42. -/
theorem c6_witness :
    retry_with_backoff 3 1 defaultExceptions
        (fun _ => (Except.ok 42 : Except Exc Nat)) =
      { result := Except.ok 42, calls := 1, sleeps := [],
        warnLogs := 0, errLogs := 0 } :=
  c6_success_passthrough 3 1 defaultExceptions (fun _ => Except.ok 42) 42 rfl

/-- C9: under the default configuration (retries = 3, backoff 1,
exceptions = (Exception,)), every failure whose class derives from
Exception is retryable — an operation always failing with such
failures is invoked 3 + 1 times and the last failure propagates —
while a failure not derived from Exception propagates immediately
after one invocation with no delay. -/
theorem c9_default_retryable_set (op : Nat → Except Exc α) (f : Nat → Exc) (e : Exc) :
    ((∀ k, op k = Except.error (f k)) → (∀ k, (f k).derivesException = true) →
      (retry_default op).calls = 3 + 1 ∧
      (retry_default op).result = Except.error (f 3)) ∧
    (op 0 = Except.error e → e.derivesException = false →
      retry_default op =
        { result := Except.error e, calls := 1, sleeps := [],
          warnLogs := 0, errLogs := 0 }) := by
  constructor
  · intro hop hc
    rw [retry_default, retry_fail_spec 3 1 defaultExceptions op f hop hc]
    exact ⟨rfl, rfl⟩
  · intro hop hc
    exact retry_nonretry_spec 3 1 defaultExceptions op e hop hc

/-- Witness for C9: an always-failing Exception-derived operation is
attempted four times, while a KeyboardInterrupt-style failure escapes
at once. -/
theorem c9_witness :
    ((retry_default (fun _ => (Except.error excBoom : Except Exc Nat))).calls = 3 + 1 ∧
     (retry_default (fun _ => (Except.error excBoom : Except Exc Nat))).result
        = Except.error excBoom) ∧
    retry_default (fun _ => (Except.error excInterrupt : Except Exc Nat)) =
      { result := Except.error excInterrupt, calls := 1, sleeps := [],
        warnLogs := 0, errLogs := 0 } :=
  ⟨(c9_default_retryable_set (fun _ => Except.error excBoom)
      (fun _ => excBoom) excBoom).1 (fun _ => rfl) (fun _ => rfl),
   (c9_default_retryable_set (fun _ => Except.error excInterrupt)
      (fun _ => excBoom) excInterrupt).2 rfl rfl⟩

/-- C5: Workflow construction fails with the ValueError of the source
(the ValidationError of the spec taxonomy) on an empty, absent, or
non-string org_id, returning no instance at all; on any non-empty
string it succeeds with org_id equal to the input exactly and the
derived logger name, emitting the initialization record. -/
theorem c5_workflow_construction (cls s : String) (v : PyVal) :
    (s ≠ "" →
      BaseWorkflow.init cls (.str s) =
        Except.ok ({ org_id := s, loggerName := cls ++ "[" ++ s ++ "]" },
          { level := LogLevel.info, loggerName := cls ++ "[" ++ s ++ "]",
            text := "Initialized workflow for Org: " ++ s })) ∧
    BaseWorkflow.init cls (.str "") = Except.error orgIdError ∧
    BaseWorkflow.init cls .none = Except.error orgIdError ∧
    (v.isStr = false → BaseWorkflow.init cls v = Except.error orgIdError) := by
  refine ⟨?_, ?_, ?_, ?_⟩
  · intro hs
    have hempty : s.isEmpty = false := by
      cases h : s.isEmpty
      · rfl
      · exact absurd (((String.isEmpty_iff s).mp h)) hs
    simp [BaseWorkflow.init, PyVal.truthy, PyVal.isStr, PyVal.asStr, hempty]
  · rfl
  · rfl
  · intro hv
    cases v with
    | str t => exact absurd hv (by simp [PyVal.isStr])
    | none => rfl
    | int m => simp [BaseWorkflow.init, PyVal.truthy, PyVal.isStr]
    | bool b => simp [BaseWorkflow.init, PyVal.truthy, PyVal.isStr]

/-- Witness for C5 at the tenant ids of the repository test suite and
a non-string value. -/
theorem c5_witness :
    BaseWorkflow.init "MockWorkflow" (.str "org_test_123") =
      Except.ok ({ org_id := "org_test_123",
                   loggerName := "MockWorkflow" ++ "[" ++ "org_test_123" ++ "]" },
        { level := LogLevel.info,
          loggerName := "MockWorkflow" ++ "[" ++ "org_test_123" ++ "]",
          text := "Initialized workflow for Org: " ++ "org_test_123" }) ∧
    BaseWorkflow.init "MockWorkflow" (.str "") = Except.error orgIdError ∧
    BaseWorkflow.init "MockWorkflow" .none = Except.error orgIdError ∧
    BaseWorkflow.init "MockWorkflow" (.int 7) = Except.error orgIdError :=
  ⟨(c5_workflow_construction "MockWorkflow" "org_test_123" (.int 7)).1 (by decide),
   (c5_workflow_construction "MockWorkflow" "org_test_123" (.int 7)).2.1,
   (c5_workflow_construction "MockWorkflow" "org_test_123" (.int 7)).2.2.1,
   (c5_workflow_construction "MockWorkflow" "org_test_123" (.int 7)).2.2.2 rfl⟩

/-- C7: the tenant identity and the derived logger name are fixed at
construction: rfr_level_4_alert and logPartialSuccess return the
instance state unchanged for every input, so neither core operation
reassigns the tenant fields. -/
theorem c7_tenant_context_immutable (wf : BaseWorkflow) (message : String)
    (context : Option Ctx) (sink : AlertSink) (step details : String) :
    (rfr_level_4_alert wf message context sink).1 = wf ∧
    (logPartialSuccess wf step details).1 = wf :=
  ⟨rfl, rfl⟩

/-- The state after any get_settings call holds the returned object. -/
theorem get_settings_post (σ : ProcState) (mk : Settings) :
    (get_settings σ mk).2.settingsCache = Option.some (get_settings σ mk).1 := by
  cases h : σ.settingsCache <;> simp [get_settings, h]

/-- On a populated cache, get_settings returns the cached object and
leaves the state unchanged. -/
theorem get_settings_cached (σ : ProcState) (mk : Settings) (c : Nat × Settings)
    (h : σ.settingsCache = Option.some c) : get_settings σ mk = (c, σ) := by
  simp [get_settings, h]

/-- C8: get_settings is a process-wide cached singleton — for every
initial state, the n-th call after the first returns exactly the pair
(same object identity, same settings, same state) that the first call
returned. -/
theorem c8_settings_singleton (σ : ProcState) (mk : Settings) (n : Nat) :
    get_settings_nth σ mk n = get_settings σ mk := by
  induction n with
  | zero => rfl
  | succ m ih =>
    rw [get_settings_nth, ih,
      get_settings_cached (get_settings σ mk).2 mk (get_settings σ mk).1
        (get_settings_post σ mk)]

/-- C10: for every non-empty org_id string, get_org_context returns
exactly the dict of the input org id, the storage prefix
orgs/<org_id>/ and the log prefix ALS[<org_id>], derived from the
input alone; on the empty string or an absent org_id it raises the
isolation ValueError and returns nothing. -/
theorem c10_org_context (s : String) :
    (s ≠ "" → get_org_context (.str s) =
      Except.ok [("org_id", PyVal.str s),
                 ("storage_prefix", PyVal.str ("orgs/" ++ s ++ "/")),
                 ("log_prefix", PyVal.str ("ALS[" ++ s ++ "]"))]) ∧
    get_org_context (.str "") = Except.error isolationError ∧
    get_org_context .none = Except.error isolationError := by
  refine ⟨?_, rfl, rfl⟩
  intro hs
  have hempty : s.isEmpty = false := by
    cases h : s.isEmpty
    · rfl
    · exact absurd (((String.isEmpty_iff s).mp h)) hs
  simp [get_org_context, PyVal.truthy, PyVal.pyStr, hempty]

/-- Witness for C10 at the org id of the spec scenario. -/
theorem c10_witness :
    get_org_context (.str "org_42") =
      Except.ok [("org_id", PyVal.str "org_42"),
                 ("storage_prefix", PyVal.str ("orgs/" ++ "org_42" ++ "/")),
                 ("log_prefix", PyVal.str ("ALS[" ++ "org_42" ++ "]"))] ∧
    get_org_context (.str "") = Except.error isolationError :=
  ⟨(c10_org_context "org_42").1 (by decide), (c10_org_context "org_42").2.1⟩
